import Mathlib

/-!
Shallow embedding of the retrieval-augmented chat pipeline in
`streamlit_app.py` (Food Recipe Assistant): the sliding-window chat
history (`get_chat_history`), the history-aware query rewriter
(`summarize_question_with_history`), the category-filtered retriever
(`RAG_class.retrieve`), the prompt builder (`RAG_class.create_prompt`),
the orchestrating method (`RAG_class.query`), and the chat-store
handling of `main`.

The external Cortex search service and the LLM completion endpoint are
passed in as function parameters.  Python runtime errors that the code
itself can raise are modelled with `PyError`.
-/

/-- A chat turn, the dict `\x7b"role": ..., "content": ...\x7d` stored in
`st.session_state.messages`. -/
structure Message where
  role : String
  content : String
deriving DecidableEq, Repr

/-- Default turn used for (never reached) out-of-range indexing. -/
def Message.empty : Message := { role := "", content := "" }

/-- Python runtime errors relevant to this embedding. -/
inductive PyError where
  | unboundLocalError (name : String)
deriving DecidableEq, Repr

/-- Configuration constant `NUM_CHUNKS = 3` (line 65 of the source). -/
def NUM_CHUNKS : Nat := 3

/-- Configuration constant `SLIDE_WINDOW = 7` (line 66 of the source). -/
def SLIDE_WINDOW : Nat := 7

/-- Configuration constant `COLUMNS` (line 70 of the source). -/
def COLUMNS : List String := ["chunk", "relative_path", "category"]

/-- Embedding of `get_chat_history`, generalised over the window size
`W` (the source fixes `W := SLIDE_WINDOW`).  Python computes
`start_index = max(0, len(messages) - W)`, which is truncated natural
subtraction, and then appends `messages[i]` for
`i in range(start_index, len(messages) - 1)`; that index range is
`List.range' start_index (len - 1 - start_index)`. -/
def get_chat_history_w (W : Nat) (messages : List Message) : List Message :=
  let start_index := messages.length - W
  (List.range' start_index (messages.length - 1 - start_index)).map
    (fun i => messages.getD i Message.empty)

/-- Embedding of `get_chat_history` as written, with the window size
fixed to `SLIDE_WINDOW`.  An absent `st.session_state.messages` key is
modelled by the empty store (the source returns `[]` for it). -/
def get_chat_history (messages : List Message) : List Message :=
  get_chat_history_w SLIDE_WINDOW messages

/-- Concrete store of 8 prior turns, used as a test input. -/
def eightTurnStore : List Message :=
  (List.range 8).map (fun i => { role := "user", content := toString i })

/-- A category filter, the JSON object `\x7b"@eq": \x7bfield: value\x7d\x7d`
built by `retrieve`. -/
inductive FilterObj where
  | eq (field : String) (value : String)
deriving DecidableEq, Repr

/-- A request to the external Cortex search service, carrying the
arguments of `svc.search(query, COLUMNS, filter=..., limit=...)`. -/
structure SearchRequest where
  query : String
  columns : List String
  filter : Option FilterObj
  limit : Nat
deriving DecidableEq, Repr

/-- One record of a search response, exposing the `COLUMNS` fields.
`relative_path` is optional because `retrieve` reads it with
`item.get('relative_path', '')`. -/
structure SearchResult where
  chunk : String
  relative_path : Option String
  category : String
deriving DecidableEq, Repr

/-- The search request `RAG_class.retrieve` sends for a query and a
category: unfiltered when the category is `"ALL"`, otherwise carrying
the single equality filter `\x7b"@eq": \x7b"category": category\x7d\x7d`;
both branches request the `COLUMNS` fields with `limit = NUM_CHUNKS`. -/
def retrieveRequest (query category : String) : SearchRequest :=
  if category = "ALL" then
    { query := query, columns := COLUMNS, filter := none, limit := NUM_CHUNKS }
  else
    { query := query, columns := COLUMNS,
      filter := some (FilterObj.eq "category" category), limit := NUM_CHUNKS }

/-- Embedding of `RAG_class.retrieve`; the external search service is
the parameter `svc`.  The set `relative_paths` collects
`item.get('relative_path', '')` over all response records.  On a
non-empty result list the method returns the chunk texts and that set;
on an empty result list the source's `else` branch returns the local
variable `retrieved_chunks`, which was never assigned on that path, so
the call raises `UnboundLocalError`. -/
def RAG_class.retrieve (svc : SearchRequest → List SearchResult)
    (query category : String) :
    Except PyError (List String × Finset String) :=
  let response := svc (retrieveRequest query category)
  let relative_paths : Finset String :=
    (response.map (fun item => item.relative_path.getD "")).toFinset
  if response.isEmpty then
    Except.error (PyError.unboundLocalError "retrieved_chunks")
  else
    Except.ok (response.map (fun curr => curr.chunk), relative_paths)

/-- CPython `repr` of a string value, as used when a Python list or dict
is interpolated into an f-string; modelled for strings that contain no
quote or escape characters (all inputs exercised here). -/
def pyReprString (s : String) : String :=
  "\x27" ++ s ++ "\x27"

/-- CPython `str` of one chat-turn dict
`\x7b'role': ..., 'content': ...\x7d`. -/
def Message.pyRepr (m : Message) : String :=
  "\x7b\x27role\x27: " ++ pyReprString m.role ++
    ", \x27content\x27: " ++ pyReprString m.content ++ "\x7d"

/-- CPython `str` of a list of chat-turn dicts, as interpolated by the
f-strings of `summarize_question_with_history` and `create_prompt`. -/
def pyStrMessages (ms : List Message) : String :=
  "[" ++ String.intercalate ", " (ms.map Message.pyRepr) ++ "]"

/-- CPython `str` of a list of strings, as interpolated for
`prompt_context` in `create_prompt`. -/
def pyStrList (xs : List String) : String :=
  "[" ++ String.intercalate ", " (xs.map pyReprString) ++ "]"

/-- The instruction prompt built by `summarize_question_with_history`
(an f-string interpolating the literal chat history and question). -/
def summarize_prompt (chat_history : List Message) (question : String) : String :=
  "\n    Based on the chat history below and the question, generate a query that extends the question\n    with the chat history provided. The query should be in natural language.\n    Answer with only the query. Do not add any explanation.\n\n    <chat_history>\n    "
    ++ pyStrMessages chat_history
    ++ "\n    </chat_history>\n\n    <question>\n    "
    ++ question
    ++ "\n    </question>\n    "

/-- Embedding of `summarize_question_with_history`: builds the
instruction prompt and returns the completion service's output on it.
The quote-stripping of the older SQL-based variant is commented out in
the source, so the output is returned as-is. -/
def summarize_question_with_history (complete : String → String)
    (chat_history : List Message) (question : String) : String :=
  complete (summarize_prompt chat_history question)

/-- Quote removal described by the spec, "trimmed of any embedded quote
characters"; stated from the spec's words for comparison with the code,
matching the commented-out `summary.replace("'", "")` line. -/
def spec_removeQuotes (s : String) : String :=
  String.mk (s.data.filter (fun c => c ≠ '\x27'))

/-- Embedding of `RAG_class.create_prompt`: the persona f-string
interpolating category, chat history, retrieved context and the user
query.  The grouping of the `++` chain keeps the `User Query:` field
as one visible segment; the assembled text is unchanged. -/
def RAG_class.create_prompt (query category : String)
    (prompt_context : List String) (chat_history : String) : String :=
  ("\n        I am Ali, a friendly and witty chef who specializes in "
      ++ category
      ++ " recipes! I love helping people cook and finding the perfect recipes from our collection.\n\n        Conversation Flow:\n        1. When suggesting recipes:\n            - Prioritize recipes that makes use of all ingredients\n            - First list all matching recipes as numbered options\n            - Ask which recipe they\x27d like to know more about\n        2. When user selects a recipe, provide full details in this format:\n            Recipe Name:\n            Quantities (for 1 person):\n            Cooking Time:\n            Steps:\n            Cuisine:\n            General Diet Type:\n\n        <chat_history>\n        "
      ++ chat_history
      ++ "\n        </chat_history>\n\n        <context>\n        "
      ++ pyStrList prompt_context
      ++ "\n        </context>\n\n        ")
    ++ ("User Query: " ++ query)
    ++ ("\n        Current Category: "
      ++ category
      ++ "\n\n        Response (as Ali, friendly and category-aware):\n        ")

/-- Embedding of `RAG_class.generate_completion`: calls the completion
service on the final prompt; `query` and `context_rag` are extra inputs
kept only for Trulens monitoring. -/
def RAG_class.generate_completion (complete : String → String)
    (query prompt : String) (context_rag : List String) : String :=
  complete prompt

/-- Observable behaviour of one `RAG_class.query` run: whether the
rewriter was invoked, which query string was sent to retrieval, and the
outcome (prompt, completion text, related paths) or the propagated
error. -/
structure QueryRun where
  rewriter_invoked : Bool
  retrieval_query : String
  outcome : Except PyError (String × String × Finset String)

/-- Embedding of `RAG_class.query`.  The source branches on
`st.session_state.use_chat_history` and then on the truthiness of
`chat_history`; the empty/non-empty test is written here with
`isEmpty`, with the rewriting branch taken exactly when the window is
non-empty.  In the two non-rewriting branches `create_prompt` is called
without `chat_history`, so its default `""` applies. -/
def RAG_class.query (svc : SearchRequest → List SearchResult)
    (complete : String → String) (use_chat_history : Bool)
    (messages : List Message) (query category : String) : QueryRun :=
  if use_chat_history then
    let chat_history := get_chat_history messages
    if chat_history.isEmpty then
      { rewriter_invoked := false, retrieval_query := query,
        outcome :=
          match RAG_class.retrieve svc query category with
          | Except.error e => Except.error e
          | Except.ok (context_rag, relative_paths) =>
            let prompt := RAG_class.create_prompt query category context_rag ""
            Except.ok (prompt,
              RAG_class.generate_completion complete query prompt context_rag,
              relative_paths) }
    else
      let question_summary :=
        summarize_question_with_history complete chat_history query
      { rewriter_invoked := true, retrieval_query := question_summary,
        outcome :=
          match RAG_class.retrieve svc question_summary category with
          | Except.error e => Except.error e
          | Except.ok (context_rag, relative_paths) =>
            let prompt := RAG_class.create_prompt query category context_rag
              (pyStrMessages chat_history)
            Except.ok (prompt,
              RAG_class.generate_completion complete query prompt context_rag,
              relative_paths) }
  else
    { rewriter_invoked := false, retrieval_query := query,
      outcome :=
        match RAG_class.retrieve svc query category with
        | Except.error e => Except.error e
        | Except.ok (context_rag, relative_paths) =>
          let prompt := RAG_class.create_prompt query category context_rag ""
          Except.ok (prompt,
            RAG_class.generate_completion complete query prompt context_rag,
            relative_paths) }

/-- Sidebar rendering gate of `main`: the related-recipes expander
iterates over the paths only when the set is non-empty
(`if relative_paths:`), so this is the set of identifiers that get a
link rendered. -/
def sidebar_related_paths (relative_paths : Finset String) : Finset String :=
  if relative_paths = ∅ then ∅ else relative_paths

/-- Embedding of the chat-input block of `main` (lines 351-369): the
user turn is appended to `st.session_state.messages` first, then the
pipeline runs against the updated store; on success the assistant turn
is appended after the answer renders, while a raised error propagates
out of the block and leaves the store as it was after the user turn. -/
def main_handle_query (messages : List Message) (query : String)
    (pipeline : List Message → Except PyError (String × Finset String)) :
    List Message :=
  let messages1 := messages ++ [{ role := "user", content := query }]
  match pipeline messages1 with
  | Except.error _ => messages1
  | Except.ok (response, _) =>
      messages1 ++ [{ role := "assistant", content := response }]

/-- Concrete search record used as a test fixture. -/
def sampleResult : SearchResult :=
  { chunk := "Recipe chunk", relative_path := some "recipes/pasta.txt",
    category := "Snacks" }

/-- Concrete search record lacking the `relative_path` field. -/
def sampleResultNoPath : SearchResult :=
  { chunk := "Stray chunk", relative_path := none, category := "Snacks" }

/-- Concrete search service fixture: holds two records and honours the
`limit` argument of each request. -/
def sampleSvc : SearchRequest → List SearchResult :=
  fun req => [sampleResult, sampleResultNoPath].take req.limit

/-- Concrete two-turn store fixture (welcome turn plus one user turn),
whose history window is non-empty. -/
def sampleMessages : List Message :=
  [{ role := "assistant", content := "welcome" },
   { role := "user", content := "hi" }]

/-- The prompt produced by the fixture pipeline run used in the
witnesses below. -/
def samplePrompt : String :=
  RAG_class.create_prompt "tomato" "ALL" ["Recipe chunk", "Stray chunk"]
    (pyStrMessages (get_chat_history sampleMessages))

theorem get_chat_history_w_eq_slice (W : Nat) (messages : List Message) :
    get_chat_history_w W messages =
      (messages.take (messages.length - 1)).drop (messages.length - W) := by
  apply List.ext_getElem
  · simp only [get_chat_history_w, List.length_map, List.length_range',
      List.length_drop, List.length_take]
    omega
  · intro i h1 h2
    have h1' : i < messages.length - 1 - (messages.length - W) := by
      simpa [get_chat_history_w] using h1
    simp only [get_chat_history_w, List.getElem_map, List.getElem_range',
      List.getElem_drop, List.getElem_take, one_mul]
    rw [List.getD_eq_getElem]

theorem get_chat_history_w_length (W : Nat) (messages : List Message) :
    (get_chat_history_w W messages).length = min W messages.length - 1 := by
  simp [get_chat_history_w]
  omega

/-- C2 counterexample: for a store of `N = 8` prior turns and window
size `W = SLIDE_WINDOW = 7`, `get_chat_history` returns 6 turns, not
the `max 0 (min W (N - 1)) = 7` turns the claim states. -/
theorem get_chat_history_count_claim_false :
    (get_chat_history eightTurnStore).length ≠
      max 0 (min SLIDE_WINDOW (eightTurnStore.length - 1)) := by
  decide

/-- C2 amended: for every window size `W` and store of length `N`,
`get_chat_history` returns exactly `min W N - 1` turns (truncated
subtraction, i.e. `max (0, min (W, N) - 1)`), always excluding the most
recent entry; in particular a store of 8 prior turns with window size 7
yields 6 turns. -/
theorem get_chat_history_turn_count (W : Nat) (messages : List Message) :
    (get_chat_history_w W messages).length = min W messages.length - 1 ∧
    (get_chat_history eightTurnStore).length = 6 :=
  ⟨get_chat_history_w_length W messages, by decide⟩

/-- C3: `get_chat_history` is exactly the slice
`store[max(0, N - W) : N - 1]` of the stored turns, in order (both
`max (0, N - W)` and `N - 1` are the truncated natural subtractions
below), and it returns the empty sequence whenever `N ≤ 1`; it is a
pure projection, leaving the store untouched. -/
theorem get_chat_history_is_slice (W : Nat) (messages : List Message) :
    get_chat_history_w W messages =
      (messages.take (messages.length - 1)).drop (messages.length - W) ∧
    (messages.length ≤ 1 → get_chat_history_w W messages = []) := by
  refine ⟨get_chat_history_w_eq_slice W messages, fun h => ?_⟩
  have := get_chat_history_w_length W messages
  have hlen : (get_chat_history_w W messages).length = 0 := by omega
  exact List.length_eq_zero.mp hlen

/-- C3 witness: on a one-turn store the window is empty. -/
theorem get_chat_history_is_slice_witness :
    get_chat_history_w 7 [{ role := "user", content := "hi" }] = [] :=
  (get_chat_history_is_slice 7 [{ role := "user", content := "hi" }]).2
    (by decide)

/-- C4: the search request issued by `retrieve` carries no filter
predicate exactly when the category is `"ALL"`, and for any other
category it carries exactly the one equality predicate on the
`"category"` field with that value. -/
theorem retrieve_filter_by_category (query category : String) :
    (category = "ALL" → (retrieveRequest query category).filter = none) ∧
    (category ≠ "ALL" →
      (retrieveRequest query category).filter =
        some (FilterObj.eq "category" category)) := by
  constructor <;> intro h <;> simp [retrieveRequest, h]

/-- C4 witness: concrete requests for category `"ALL"` and for category
`"Snacks"`. -/
theorem retrieve_filter_by_category_witness :
    (retrieveRequest "pasta" "ALL").filter = none ∧
    (retrieveRequest "pasta" "Snacks").filter =
      some (FilterObj.eq "category" "Snacks") :=
  ⟨(retrieve_filter_by_category "pasta" "ALL").1 rfl,
   (retrieve_filter_by_category "pasta" "Snacks").2 (by decide)⟩

/-- C1: a search response with zero matches does not yield an empty
retrieval result.  The `else` branch of `retrieve` returns the local
variable `retrieved_chunks` that is never assigned on that path, so the
call raises `UnboundLocalError` and the pipeline run errors instead of
proceeding to completion. -/
theorem retrieve_zero_matches_raises :
    RAG_class.retrieve (fun _ => []) "chicken and rice" "ALL" =
      Except.error (PyError.unboundLocalError "retrieved_chunks") ∧
    (RAG_class.query (fun _ => []) (fun _ => "answer") false []
        "chicken and rice" "ALL").outcome =
      Except.error (PyError.unboundLocalError "retrieved_chunks") :=
  ⟨rfl, rfl⟩

/-- C9: whenever the external search service honours the `limit`
argument of the requests it receives, every successful `retrieve` call
returns at most `3` passages, however many matching records the
backing service holds. -/
theorem retrieve_at_most_three_passages
    (svc : SearchRequest → List SearchResult)
    (hsvc : ∀ req, (svc req).length ≤ req.limit)
    (query category : String) (res : List String × Finset String)
    (h : RAG_class.retrieve svc query category = Except.ok res) :
    res.1.length ≤ 3 := by
  have hlim : (retrieveRequest query category).limit = NUM_CHUNKS := by
    unfold retrieveRequest
    split <;> rfl
  simp only [RAG_class.retrieve] at h
  split at h
  · exact absurd h (by simp)
  · obtain rfl := Except.ok.inj h
    have h2 := hsvc (retrieveRequest query category)
    rw [hlim] at h2
    simpa using h2

/-- C9 witness: the fixture service holds two records and honours the
limit, and the retrieved passage list indeed has at most three
entries. -/
theorem retrieve_at_most_three_passages_witness :
    (["Recipe chunk", "Stray chunk"] : List String).length ≤ 3 :=
  retrieve_at_most_three_passages sampleSvc
    (by intro req; simp only [sampleSvc, List.length_take]; omega)
    "soup" "ALL"
    (["Recipe chunk", "Stray chunk"],
      (["recipes/pasta.txt", ""] : List String).toFinset)
    rfl

/-- C10: for every successful `retrieve` call the returned sourceId set
contains exactly the `relative_path` values of the response records,
with `""` substituted for a record lacking the field; in particular,
with a pathless record present, `""` is a member and the set is
non-empty, so the sidebar gate of `main` renders it like any document
identifier. -/
theorem retrieve_relative_paths_spec
    (svc : SearchRequest → List SearchResult) (query category : String)
    (res : List String × Finset String)
    (h : RAG_class.retrieve svc query category = Except.ok res) :
    (∀ s, s ∈ res.2 ↔
      ∃ item ∈ svc (retrieveRequest query category),
        item.relative_path.getD "" = s) ∧
    ((∃ item ∈ svc (retrieveRequest query category),
        item.relative_path = none) →
      "" ∈ sidebar_related_paths res.2) := by
  simp only [RAG_class.retrieve] at h
  split at h
  · exact absurd h (by simp)
  · obtain rfl := Except.ok.inj h
    constructor
    · intro s
      simp [List.mem_map]
    · rintro ⟨item, hmem, hnone⟩
      have h0 : "" ∈ ((svc (retrieveRequest query category)).map
          (fun item => item.relative_path.getD "")).toFinset := by
        simp only [List.mem_toFinset, List.mem_map]
        exact ⟨item, hmem, by simp [hnone]⟩
      have hne : ((svc (retrieveRequest query category)).map
          (fun item => item.relative_path.getD "")).toFinset ≠ ∅ := by
        intro hh
        rw [hh] at h0
        exact absurd h0 (by simp)
      simpa [sidebar_related_paths, hne] using h0

/-- C10 witness: with the fixture service (whose second record has no
`relative_path`), the empty string is rendered by the sidebar. -/
theorem retrieve_relative_paths_spec_witness :
    "" ∈ sidebar_related_paths
      ((["recipes/pasta.txt", ""] : List String).toFinset) :=
  (retrieve_relative_paths_spec sampleSvc "soup" "ALL"
      (["Recipe chunk", "Stray chunk"],
        (["recipes/pasta.txt", ""] : List String).toFinset)
      rfl).2
    ⟨sampleResultNoPath, by decide, rfl⟩

/-- C7: `main` appends the user's question turn before running the
pipeline; whatever the pipeline outcome, the store after the user turn
is a prefix of the final store (nothing appended earlier is ever
retracted), and on a pipeline error the final store is exactly the old
store plus the question turn, with no assistant turn appended. -/
theorem main_store_append_safe (messages : List Message) (query : String)
    (pipeline : List Message → Except PyError (String × Finset String)) :
    (∃ rest, main_handle_query messages query pipeline =
      (messages ++ [{ role := "user", content := query }]) ++ rest) ∧
    (∀ e, pipeline (messages ++ [{ role := "user", content := query }]) =
        Except.error e →
      main_handle_query messages query pipeline =
        messages ++ [{ role := "user", content := query }]) := by
  cases hp : pipeline (messages ++ [{ role := "user", content := query }]) with
  | error e =>
    constructor
    · exact ⟨[], by simp [main_handle_query, hp]⟩
    · intro e' h'
      simp [main_handle_query, hp]
  | ok val =>
    obtain ⟨response, rels⟩ := val
    constructor
    · exact ⟨[{ role := "assistant", content := response }],
        by simp [main_handle_query, hp]⟩
    · intro e' h'
      exact absurd h' (by simp)

/-- C7 witness: with an erroring pipeline, the final store is the
question turn alone. -/
theorem main_store_append_safe_witness :
    main_handle_query [] "hello"
      (fun _ => Except.error (PyError.unboundLocalError "retrieved_chunks")) =
      [] ++ [{ role := "user", content := "hello" }] :=
  (main_store_append_safe [] "hello"
      (fun _ =>
        Except.error (PyError.unboundLocalError "retrieved_chunks"))).2
    (PyError.unboundLocalError "retrieved_chunks") rfl

/-- C8 counterexample: with a completion whose output contains a quote
character, `summarize_question_with_history` returns the text verbatim
rather than with the quotes removed (the stripping line is commented
out in the source). -/
theorem summarize_quote_removal_claim_false :
    summarize_question_with_history (fun _ => "what\x27s for dinner") []
        "q" ≠
      spec_removeQuotes
        ((fun _ : String => "what\x27s for dinner")
          (summarize_prompt [] "q")) := by
  decide

/-- C8 amended: for every history and question,
`summarize_question_with_history` returns the completion service's raw
output text on the instruction prompt, unmodified (in particular with
any embedded quote characters intact). -/
theorem summarize_returns_raw_completion
    (complete : String → String) (chat_history : List Message)
    (question : String) :
    summarize_question_with_history complete chat_history question =
      complete (summarize_prompt chat_history question) := rfl

theorem create_prompt_embeds_user_query (query category : String)
    (prompt_context : List String) (chat_history : String) :
    ∃ pre post, RAG_class.create_prompt query category prompt_context
      chat_history = pre ++ ("User Query: " ++ query) ++ post :=
  ⟨_, _, rfl⟩

/-- C6: the rewriter is invoked in a `query` run exactly when history
use is enabled and the history window is non-empty; otherwise the raw
query itself is the retrieval query. -/
theorem query_rewriter_invoked_iff
    (svc : SearchRequest → List SearchResult) (complete : String → String)
    (use_chat_history : Bool) (messages : List Message)
    (query category : String) :
    ((RAG_class.query svc complete use_chat_history messages query
        category).rewriter_invoked = true ↔
      (use_chat_history = true ∧ get_chat_history messages ≠ [])) ∧
    ((RAG_class.query svc complete use_chat_history messages query
        category).rewriter_invoked = false →
      (RAG_class.query svc complete use_chat_history messages query
        category).retrieval_query = query) := by
  cases use_chat_history with
  | false => simp [RAG_class.query]
  | true =>
    by_cases h : (get_chat_history messages).isEmpty
    · have h' : get_chat_history messages = [] := by simpa using h
      simp [RAG_class.query, h, h']
    · have h' : get_chat_history messages ≠ [] := by simpa using h
      simp [RAG_class.query, h, h']

/-- C6 witness: with history enabled and a non-empty window, the
rewriter is invoked. -/
theorem query_rewriter_invoked_iff_witness :
    (RAG_class.query sampleSvc (fun _ => "SUMMARY") true sampleMessages
      "tomato" "ALL").rewriter_invoked = true :=
  (query_rewriter_invoked_iff sampleSvc (fun _ => "SUMMARY") true
      sampleMessages "tomato" "ALL").1.mpr ⟨rfl, by decide⟩

/-- C5: in a run where rewriting occurs, the rewritten query is the
string sent to retrieval, while the prompt handed to the completer is
built from the raw user query: it is `create_prompt` applied to the raw
query and it embeds the raw query after the literal `User Query: `
marker. -/
theorem query_rewrite_used_only_for_retrieval
    (svc : SearchRequest → List SearchResult) (complete : String → String)
    (messages : List Message) (query category : String)
    (hhist : get_chat_history messages ≠ []) :
    (RAG_class.query svc complete true messages query
        category).retrieval_query =
      summarize_question_with_history complete (get_chat_history messages)
        query ∧
    ∀ prompt completion rels,
      (RAG_class.query svc complete true messages query category).outcome =
        Except.ok (prompt, completion, rels) →
      (∃ ctx,
        RAG_class.retrieve svc
          (summarize_question_with_history complete
            (get_chat_history messages) query) category =
          Except.ok (ctx, rels) ∧
        prompt = RAG_class.create_prompt query category ctx
          (pyStrMessages (get_chat_history messages))) ∧
      ∃ pre post, prompt = pre ++ ("User Query: " ++ query) ++ post := by
  have hne : ¬ (get_chat_history messages).isEmpty := by simpa using hhist
  constructor
  · simp [RAG_class.query, hne]
  · intro prompt completion rels h
    simp only [RAG_class.query, hne, Bool.false_eq_true, if_false,
      if_true] at h
    cases hr : RAG_class.retrieve svc
        (summarize_question_with_history complete
          (get_chat_history messages) query) category with
    | error e =>
      rw [hr] at h
      exact absurd h (by simp)
    | ok val =>
      obtain ⟨ctx, rels'⟩ := val
      rw [hr] at h
      simp only [Except.ok.injEq, Prod.mk.injEq] at h
      obtain ⟨hp, _, hrels⟩ := h
      subst hrels
      exact ⟨⟨ctx, rfl, hp.symm⟩, by
        rw [← hp]
        exact create_prompt_embeds_user_query query category ctx
          (pyStrMessages (get_chat_history messages))⟩

/-- C5 witness: the fixture run rewrites `"tomato"` to `"SUMMARY"`,
retrieves with the rewritten query, and still builds the prompt around
the raw query. -/
theorem query_rewrite_used_only_for_retrieval_witness :
    (∃ ctx,
      RAG_class.retrieve sampleSvc
        (summarize_question_with_history (fun _ => "SUMMARY")
          (get_chat_history sampleMessages) "tomato") "ALL" =
        Except.ok (ctx, (["recipes/pasta.txt", ""] : List String).toFinset) ∧
      samplePrompt = RAG_class.create_prompt "tomato" "ALL" ctx
        (pyStrMessages (get_chat_history sampleMessages))) ∧
    ∃ pre post, samplePrompt = pre ++ ("User Query: " ++ "tomato") ++ post :=
  (query_rewrite_used_only_for_retrieval sampleSvc (fun _ => "SUMMARY")
      sampleMessages "tomato" "ALL" (by decide)).2
    samplePrompt "SUMMARY"
    ((["recipes/pasta.txt", ""] : List String).toFinset) rfl
